import Mathlib

/-!
Shallow embedding of the stock-etl-airflow pipeline core:
the equity transformer (`include/transformers/equity_transformer.py`),
the Nifty-500 extractor's retry/batch logic
(`include/extractors/nifty500_extractor.py`), the partitioned parquet
store (`include/loaders/parquet_loader.py`) and the data-quality gate
(`include/utils/data_quality.py`), together with theorems settling the
spec claims about them.

Modelling conventions: pandas float columns become `Option ℚ` (a `none`
models `NaN`, i.e. a missing or unparseable value; every pandas
comparison involving `NaN` is `False`, which the embeddings reproduce by
matching on `none`); timestamps become `Option Nat` (minutes since an
epoch, the time of day being the value mod 1440); a DataFrame becomes a
list of typed rows in order.
-/

namespace StockEtl

/-- A raw candle record as handed to `EquityTransformer.transform`:
the upstream `date` field (renamed to `timestamp` by `_rename_columns`),
OHLCV values after `pd.to_numeric(errors="coerce")` (`none` = NaN from a
null or unparseable source value), and the enrichment fields the
extractor stamps on every candle. -/
structure RawCandle where
  date : Option Nat
  «open» : Option ℚ
  high : Option ℚ
  low : Option ℚ
  close : Option ℚ
  volume : Option Int
  tradingsymbol : String
  instrument_token : Nat
  exchange : String
deriving DecidableEq, Repr

/-- A transformed row before the trade date is stamped on
(the working DataFrame inside `EquityTransformer.transform`). -/
structure PreRow where
  timestamp : Option Nat
  «open» : Option ℚ
  high : Option ℚ
  low : Option ℚ
  close : Option ℚ
  volume : Int
  tradingsymbol : String
  instrument_token : Nat
  exchange : String
deriving DecidableEq, Repr

/-- A fully transformed row (`trade_date` column added at the end of
`EquityTransformer.transform`). -/
structure Row extends PreRow where
  trade_date : Nat
deriving DecidableEq, Repr

/-- `EquityTransformer._rename_columns` followed by `_convert_dtypes`:
`date` is renamed to `timestamp`; prices are already numeric-or-NaN;
`volume` is NaN-filled with 0 and cast to int64. -/
def convertDtypes (c : RawCandle) : PreRow :=
  { timestamp := c.date
    «open» := c.«open»
    high := c.high
    low := c.low
    close := c.close
    volume := c.volume.getD 0
    tradingsymbol := c.tradingsymbol
    instrument_token := c.instrument_token
    exchange := c.exchange }

/-- `EquityTransformer._validate_timestamps`:
`df.dropna(subset=["timestamp"])`. -/
def validateTimestamps (df : List PreRow) : List PreRow :=
  df.filter (fun r => r.timestamp.isSome)

/-- The deduplication key of `EquityTransformer._dedupe`:
the `(tradingsymbol, timestamp)` column pair. -/
def keyOf (r : PreRow) : String × Option Nat :=
  (r.tradingsymbol, r.timestamp)

/-- `EquityTransformer._dedupe`:
`df.drop_duplicates(subset=["tradingsymbol", "timestamp"], keep="last")` —
a row survives iff no later row shares its key, order preserved. -/
def dedupe : List PreRow → List PreRow
  | [] => []
  | r :: rs => if ∃ s ∈ rs, keyOf s = keyOf r then dedupe rs else r :: dedupe rs

/-- Market open, 09:15, as minutes of the day
(`EquityTransformer.MARKET_OPEN`). -/
def marketOpenMin : Nat := 9 * 60 + 15

/-- Market close, 15:30, as minutes of the day
(`EquityTransformer.MARKET_CLOSE`). -/
def marketCloseMin : Nat := 15 * 60 + 30

/-- The row predicate of `EquityTransformer._filter_market_hours`:
time of day within [09:15, 15:30], both bounds inclusive.
(The filter runs after `_validate_timestamps`, so no row reaching it has
a null timestamp.) -/
def inMarketHours (r : PreRow) : Bool :=
  match r.timestamp with
  | some t => decide (marketOpenMin ≤ t % 1440) && decide (t % 1440 ≤ marketCloseMin)
  | none => false

/-- `EquityTransformer._filter_market_hours`. -/
def filterMarketHours (df : List PreRow) : List PreRow :=
  df.filter inMarketHours

/-- The row mask of `EquityTransformer._validate_ohlc`:
`(high ≥ low) & (open ≤ high) & (open ≥ low) & (close ≤ high) &
(close ≥ low)`; any comparison touching a NaN is `False` in pandas, so a
row with any NaN price fails the mask. -/
def validOHLC (r : PreRow) : Bool :=
  match r.«open», r.high, r.low, r.close with
  | some o, some h, some l, some c =>
      decide (l ≤ h) && decide (o ≤ h) && decide (l ≤ o) &&
        decide (c ≤ h) && decide (l ≤ c)
  | _, _, _, _ => false

/-- `EquityTransformer._validate_ohlc`. -/
def validateOHLC (df : List PreRow) : List PreRow :=
  df.filter validOHLC

/-- The `df["trade_date"] = self.trade_date` stamp at the end of
`EquityTransformer.transform`. -/
def stampRow (tradeDate : Nat) (r : PreRow) : Row :=
  { toPreRow := r, trade_date := tradeDate }

/-- `EquityTransformer.transform`: empty input short-circuits to an empty
DataFrame; otherwise rename, convert dtypes, drop null timestamps,
dedupe keep-last, filter market hours, filter valid OHLC, stamp the
trade date. -/
def transform (tradeDate : Nat) (raw : List RawCandle) : List Row :=
  if raw.isEmpty then []
  else
    (validateOHLC (filterMarketHours (dedupe
      (validateTimestamps (raw.map convertDtypes))))).map (stampRow tradeDate)

/-- `EquityTransformer.transform_batch`: transform each symbol's candle
list (in dict insertion order), keep the non-empty results, concatenate. -/
def transform_batch (tradeDate : Nat) (data : List (String × List RawCandle)) :
    List Row :=
  (((data.map (fun p => transform tradeDate p.2)).filter
    (fun d => !d.isEmpty))).flatten

/-! ## Extractor (`include/extractors/nifty500_extractor.py`) -/

/-- The outcome of one upstream `kite.historical_data` call: a candle
list, or a raised exception. -/
inductive FetchOutcome where
  | ok (candles : List RawCandle)
  | err
deriving DecidableEq, Repr

/-- One instrument descriptor as used by the extractor loop
(the fields it reads from the Kite instrument dict). -/
structure Instrument where
  tradingsymbol : String
  instrument_token : Nat
deriving DecidableEq, Repr

/-- Tenacity's `wait_exponential(multiplier, min, max)` delay before the
retry following the given (1-based) failed attempt:
`multiplier * 2^(attempt-1)` clamped into `[min, max]`. -/
def waitExponential (multiplier mn mx attempt : Nat) : Nat :=
  max mn (min (multiplier * 2 ^ (attempt - 1)) mx)

/-- The backoff delay of the `@retry(stop=stop_after_attempt(3),
wait=wait_exponential(multiplier=1, min=2, max=10))` decorator on
`Nifty500Extractor.extract_5min_ohlcv`. -/
def backoffDelay (attempt : Nat) : Nat :=
  waitExponential 1 2 10 attempt

/-- `Nifty500Extractor.extract_5min_ohlcv` under its retry decorator:
the upstream call (`api token attempt`) is attempted up to 3 times;
the first success is returned, and exhausting all 3 attempts re-raises
(modelled as `none`). -/
def extract_5min_ohlcv (api : Nat → Nat → FetchOutcome) (token : Nat) :
    Option (List RawCandle) :=
  match api token 1 with
  | .ok d => some d
  | .err =>
    match api token 2 with
    | .ok d => some d
    | .err =>
      match api token 3 with
      | .ok d => some d
      | .err => none

/-- The in-place enrichment loop of `Nifty500Extractor.extract_daily_data`:
`candle["tradingsymbol"] = symbol; candle["instrument_token"] = token;
candle["exchange"] = "NSE"`. -/
def enrichCandle (symbol : String) (token : Nat) (c : RawCandle) : RawCandle :=
  { c with tradingsymbol := symbol, instrument_token := token, exchange := "NSE" }

/-- One iteration of the `extract_daily_data` instrument loop: on
success with non-empty data the enriched candles are recorded under the
symbol; an empty success records nothing; a retry-exhausted failure
appends the symbol to the failed list, and the loop continues either
way. -/
def extractStep (api : Nat → Nat → FetchOutcome)
    (acc : List (String × List RawCandle) × List String) (inst : Instrument) :
    List (String × List RawCandle) × List String :=
  match extract_5min_ohlcv api inst.instrument_token with
  | some data =>
    if data.isEmpty then acc
    else
      (acc.1 ++ [(inst.tradingsymbol,
        data.map (enrichCandle inst.tradingsymbol inst.instrument_token))], acc.2)
  | none => (acc.1, acc.2 ++ [inst.tradingsymbol])

/-- `Nifty500Extractor.extract_daily_data` over a resolved instrument
list: returns the symbol-keyed results mapping (in loop order) and the
failed-symbols list; no per-instrument failure escapes the loop. -/
def extract_daily_data (api : Nat → Nat → FetchOutcome)
    (instruments : List Instrument) :
    List (String × List RawCandle) × List String :=
  instruments.foldl (extractStep api) ([], [])

/-! ## Universe resolution (`Nifty500Extractor._get_nifty500_symbols`) -/

/-- `Nifty500Extractor._get_fallback_symbols`: the hardcoded list of 20
major symbols used when the NSE universe feed is unreachable. -/
def fallbackSymbols : List String :=
  ["RELIANCE", "TCS", "HDFCBANK", "INFY", "ICICIBANK",
   "HINDUNILVR", "SBIN", "BHARTIARTL", "KOTAKBANK", "ITC",
   "LT", "AXISBANK", "BAJFINANCE", "ASIANPAINT", "MARUTI",
   "TITAN", "SUNPHARMA", "ULTRACEMCO", "WIPRO", "HCLTECH"]

/-- `Nifty500Extractor._get_nifty500_symbols`: the fetch of the NSE
Nifty-500 CSV either yields the member symbols (`some`) or raises
(`none`), in which case the fallback list is returned. -/
def getNifty500Symbols (fetched : Option (List String)) : List String :=
  match fetched with
  | some symbols => symbols
  | none => fallbackSymbols

/-- The `symbol_map = {inst["tradingsymbol"]: inst ...}` dict build of
`Nifty500Extractor.get_nifty500_instruments` followed by lookup: a dict
comprehension keeps the last instrument per symbol. -/
def symbolLookup (catalog : List Instrument) (s : String) : Option Instrument :=
  catalog.foldl (fun acc inst => if inst.tradingsymbol = s then some inst else acc)
    none

/-- `Nifty500Extractor.get_nifty500_instruments`: resolve the symbol
list (explicit, or the fetched/fallback universe), then keep, in order,
the catalog instrument for each symbol found, dropping missing
symbols. -/
def get_nifty500_instruments (catalog : List Instrument)
    (fetched : Option (List String)) (symbols : Option (List String)) :
    List Instrument :=
  let syms := match symbols with
    | some s => s
    | none => getNifty500Symbols fetched
  syms.filterMap (symbolLookup catalog)

/-! ## Partitioned store (`include/loaders/parquet_loader.py`) -/

/-- A calendar date, as held by the loader's `trade_date` argument. -/
structure Date where
  year : Nat
  month : Nat
  day : Nat
deriving DecidableEq, Repr

/-- Zero-pad a number to two digits (strftime `%m` / `%d`). -/
def pad2 (n : Nat) : String :=
  if n < 10 then "0" ++ toString n else toString n

/-- Zero-pad a number to four digits (strftime `%Y`). -/
def pad4 (n : Nat) : String :=
  if n < 10 then "000" ++ toString n
  else if n < 100 then "00" ++ toString n
  else if n < 1000 then "0" ++ toString n
  else toString n

/-- `trade_date.strftime("%Y-%m-%d")`. -/
def fmtDate (d : Date) : String :=
  pad4 d.year ++ "-" ++ pad2 d.month ++ "-" ++ pad2 d.day

/-- The partition directory of `ParquetLoader._write_layer` /
`read_partition`: `base/fno/<layer>/underlying=<u>/date=<YYYY-MM-DD>`. -/
def partitionPath (base layer underlying : String) (d : Date) : String :=
  base ++ "/fno/" ++ layer ++ "/underlying=" ++ underlying ++ "/date=" ++ fmtDate d

/-- The relevant slice of the filesystem: which partition directories
exist, and the parquet files as (partition directory, filename, rows). -/
structure FS where
  dirs : List String
  files : List (String × String × List Row)
deriving Repr

/-- `ParquetLoader._write_layer`: an empty DataFrame short-circuits to
an empty path with no directory creation; otherwise the partition
directory is created (idempotently), and the file is written unless it
already exists and `overwrite` is false; the full file path is returned
in both of those cases. -/
def writeLayer (fs : FS) (base layer underlying : String) (d : Date)
    (df : List Row) (overwrite : Bool) (filename : String) : FS × String :=
  if df.isEmpty then (fs, "")
  else
    let ppath := partitionPath base layer underlying d
    let fs1 : FS :=
      { fs with dirs := if ppath ∈ fs.dirs then fs.dirs else fs.dirs ++ [ppath] }
    let fpath := ppath ++ "/" ++ filename
    if (∃ f ∈ fs1.files, f.1 = ppath ∧ f.2.1 = filename) ∧ overwrite = false then
      (fs1, fpath)
    else
      ({ fs1 with files :=
          fs1.files.filter (fun f => !(f.1 = ppath && f.2.1 = filename))
            ++ [(ppath, filename, df)] }, fpath)

/-- `ParquetLoader.read_partition`: a missing partition directory yields
an empty DataFrame; otherwise every parquet file under the partition is
read and concatenated (an empty glob also yields an empty DataFrame);
no branch raises. -/
def read_partition (fs : FS) (base layer underlying : String) (d : Date) :
    List Row :=
  let ppath := partitionPath base layer underlying d
  if ppath ∈ fs.dirs then
    ((fs.files.filter (fun f => f.1 = ppath)).map (fun f => f.2.2)).flatten
  else []

/-- Modelled from the spec: `ParquetLoader.write_equity_raw` /
`write_equity_processed` are called by the equity DAG
(`dags/nifty500_etl_dag.py`) but their definitions are not among the
provided sources. Per the spec's path scheme the equity tree uses its
own domain in place of `fno` and a fixed scope-key literal in place of
`underlying=<u>`; otherwise the write behaves like `_write_layer`. -/
def writeEquityLayer (fs : FS) (base layer : String) (d : Date)
    (df : List Row) (overwrite : Bool) (filename : String) : FS × String :=
  if df.isEmpty then (fs, "")
  else
    let ppath := base ++ "/equity/" ++ layer ++ "/universe=nifty500/date=" ++ fmtDate d
    let fs1 : FS :=
      { fs with dirs := if ppath ∈ fs.dirs then fs.dirs else fs.dirs ++ [ppath] }
    let fpath := ppath ++ "/" ++ filename
    if (∃ f ∈ fs1.files, f.1 = ppath ∧ f.2.1 = filename) ∧ overwrite = false then
      (fs1, fpath)
    else
      ({ fs1 with files :=
          fs1.files.filter (fun f => !(f.1 = ppath && f.2.1 = filename))
            ++ [(ppath, filename, df)] }, fpath)

/-! ## Quality gate (`include/utils/data_quality.py`) -/

/-- The DataFrame handed to `DataQualityChecker`: the rows plus, for
each column the checker probes with `in df.columns`, whether that
column exists at all (a missing column cannot be expressed in the typed
rows themselves). -/
structure QualityInput where
  hasTimestampCol : Bool
  hasSymbolCol : Bool
  hasOpenCol : Bool
  hasHighCol : Bool
  hasLowCol : Bool
  hasCloseCol : Bool
  rows : List Row
deriving Repr

/-- The result of `DataQualityChecker.run_all_checks`:
`(passed, errors, warnings)`. -/
structure QualityReport where
  passed : Bool
  errors : List String
  warnings : List String
deriving DecidableEq, Repr

/-- `DataQualityChecker.check_not_empty` (errors, warnings appended). -/
def check_not_empty (df : QualityInput) : List String × List String :=
  (if df.rows.isEmpty then ["DataFrame is empty"] else [], [])

/-- `DataQualityChecker.check_no_null_timestamps`: a missing column is
itself an error; otherwise any null timestamp is an error. -/
def check_no_null_timestamps (df : QualityInput) : List String × List String :=
  if df.hasTimestampCol = false then (["Missing timestamp column"], [])
  else
    let nulls := df.rows.countP (fun r => r.timestamp.isNone)
    (if nulls > 0 then ["Found " ++ toString nulls ++ " null timestamps"] else [], [])

/-- `DataQualityChecker.check_unique_symbol_timestamps`: skipped when
either column is missing; duplicates (pandas `duplicated().sum()`,
i.e. total rows minus distinct keys) are a warning only. -/
def check_unique_symbol_timestamps (df : QualityInput) :
    List String × List String :=
  if df.hasSymbolCol = false ∨ df.hasTimestampCol = false then ([], [])
  else
    let dups :=
      df.rows.length - ((df.rows.map (fun r => keyOf r.toPreRow)).dedup).length
    ([], if dups > 0 then
      ["Found " ++ toString dups ++ " duplicate (symbol, timestamp) pairs"]
     else [])

/-- `DataQualityChecker.check_market_hours`: rows outside [09:15,15:30]
are a warning only (the count ranges over non-null timestamps). -/
def check_market_hours (df : QualityInput) : List String × List String :=
  if df.hasTimestampCol = false then ([], [])
  else
    let outside := df.rows.countP (fun r =>
      match r.timestamp with
      | some t => decide (t % 1440 < marketOpenMin) || decide (marketCloseMin < t % 1440)
      | none => false)
    ([], if outside > 0 then
      [toString outside ++ " records outside market hours"] else [])

/-- The per-column body of `DataQualityChecker.check_price_validity`:
an absent column is skipped (`continue`); negative values are an error,
exact zeros a warning; NaN values match neither. -/
def priceColCheck (present : Bool) (colName : String) (vals : List (Option ℚ)) :
    List String × List String :=
  if present = false then ([], [])
  else
    let neg := vals.countP (fun v => match v with
      | some x => decide (x < 0)
      | none => false)
    let zeros := vals.countP (fun v => match v with
      | some x => decide (x = 0)
      | none => false)
    (if neg > 0 then ["Found " ++ toString neg ++ " negative values in " ++ colName]
     else [],
     if zeros > 0 then ["Found " ++ toString zeros ++ " zero values in " ++ colName]
     else [])

/-- `DataQualityChecker.check_price_validity`: the four price columns in
order, then — only when all four are present — the `high < low` error. -/
def check_price_validity (df : QualityInput) : List String × List String :=
  let co := priceColCheck df.hasOpenCol "open" (df.rows.map (fun r => r.«open»))
  let ch := priceColCheck df.hasHighCol "high" (df.rows.map (fun r => r.high))
  let cl := priceColCheck df.hasLowCol "low" (df.rows.map (fun r => r.low))
  let cc := priceColCheck df.hasCloseCol "close" (df.rows.map (fun r => r.close))
  let hl :=
    if df.hasOpenCol && df.hasHighCol && df.hasLowCol && df.hasCloseCol then
      let invalid := df.rows.countP (fun r =>
        match r.high, r.low with
        | some h, some l => decide (h < l)
        | _, _ => false)
      if invalid > 0 then ["Found " ++ toString invalid ++ " rows where high < low"]
      else []
    else []
  (co.1 ++ ch.1 ++ cl.1 ++ cc.1 ++ hl, co.2 ++ ch.2 ++ cl.2 ++ cc.2)

/-- `DataQualityChecker.run_all_checks`: the five checks run
unconditionally in order, each appending to the shared error/warning
lists; `passed` is defined as the error list being empty. -/
def run_all_checks (df : QualityInput) : QualityReport :=
  let c1 := check_not_empty df
  let c2 := check_no_null_timestamps df
  let c3 := check_unique_symbol_timestamps df
  let c4 := check_market_hours df
  let c5 := check_price_validity df
  let errors := c1.1 ++ c2.1 ++ c3.1 ++ c4.1 ++ c5.1
  let warnings := c1.2 ++ c2.2 ++ c3.2 ++ c4.2 ++ c5.2
  { passed := errors.isEmpty, errors := errors, warnings := warnings }

/-- The `quality_check` task of `dags/fno_etl_dag.py`: run the checker
and report `status = "success" if passed else "quality_failed"`; the
checker only appends to lists, so the stage raises nothing. -/
def fnoQualityStatus (df : QualityInput) : String :=
  if (run_all_checks df).passed then "success" else "quality_failed"

/-! ## Re-ingestion view and concrete sample data -/

/-- A transformed row viewed again as a raw candle record (the columns a
re-transform of an already-transformed dataset would receive: the
`timestamp` column feeds the `date`/`timestamp` slot, prices and volume
are already typed). -/
def rowToRaw (r : Row) : RawCandle :=
  { date := r.timestamp, «open» := r.«open», high := r.high, low := r.low,
    close := r.close, volume := some r.volume,
    tradingsymbol := r.tradingsymbol, instrument_token := r.instrument_token,
    exchange := r.exchange }

/-- A well-formed 10:00 candle for symbol X (600 minutes = 10:00, inside
market hours; OHLC consistent). -/
def sampleCandle : RawCandle :=
  { date := some 600, «open» := some 10, high := some 11, low := some 9,
    close := some 10, volume := some 5, tradingsymbol := "X",
    instrument_token := 1, exchange := "NSE" }

/-- The duplicate of `sampleCandle` with close 10.5, appearing later in
extraction order (the C2 scenario). -/
def sampleCandleLater : RawCandle :=
  { sampleCandle with close := some (mkRat 21 2) }

/-- The transformed row the C2 scenario keeps. -/
def sampleRowKept : Row :=
  { timestamp := some 600, «open» := some 10, high := some 11, low := some 9,
    close := some (mkRat 21 2), volume := 5, tradingsymbol := "X",
    instrument_token := 1, exchange := "NSE", trade_date := 7 }

/-- The transformed image of `sampleCandle` itself. -/
def sampleRow : Row :=
  { timestamp := some 600, «open» := some 10, high := some 11, low := some 9,
    close := some 10, volume := 5, tradingsymbol := "X",
    instrument_token := 1, exchange := "NSE", trade_date := 7 }

/-- An all-negative but order-consistent candle with a null volume
(the C10 scenario). -/
def negCandle : RawCandle :=
  { date := some 600, «open» := some (-10), high := some (-9),
    low := some (-11), close := some (-10), volume := none,
    tradingsymbol := "X", instrument_token := 1, exchange := "NSE" }

/-- The transformed image of `negCandle`: prices unchanged, volume
coerced to 0. -/
def negRow : Row :=
  { timestamp := some 600, «open» := some (-10), high := some (-9),
    low := some (-11), close := some (-10), volume := 0,
    tradingsymbol := "X", instrument_token := 1, exchange := "NSE",
    trade_date := 7 }

/-- The instruments of the C3 scenario: 5 instruments, tokens 1..5. -/
def instruments5 : List Instrument :=
  [⟨"SYM1", 1⟩, ⟨"SYM2", 2⟩, ⟨"SYM3", 3⟩, ⟨"SYM4", 4⟩, ⟨"SYM5", 5⟩]

/-- The upstream of the C3 scenario: instrument token 3 fails
permanently (every attempt raises); all others succeed immediately. -/
def api5 : Nat → Nat → FetchOutcome := fun token _attempt =>
  if token = 3 then .err else .ok [sampleCandle]

/-- An upstream on which every call raises. -/
def apiAllErr : Nat → Nat → FetchOutcome := fun _token _attempt => .err

/-- A quality input whose only defect is one duplicated
(symbol, timestamp) pair (the C5 scenario). -/
def dupOnlyDF : QualityInput :=
  { hasTimestampCol := true, hasSymbolCol := true, hasOpenCol := true,
    hasHighCol := true, hasLowCol := true, hasCloseCol := true,
    rows := [sampleRow, sampleRow] }

/-- A quality input missing the required `open` column but otherwise
healthy (the C8 counterexample). -/
def noOpenDF : QualityInput :=
  { hasTimestampCol := true, hasSymbolCol := true, hasOpenCol := false,
    hasHighCol := true, hasLowCol := true, hasCloseCol := true,
    rows := [sampleRow] }

/-- A quality input whose `timestamp` column is missing entirely
(used to witness the amended C8). -/
def noTimestampDF : QualityInput :=
  { hasTimestampCol := false, hasSymbolCol := true, hasOpenCol := true,
    hasHighCol := true, hasLowCol := true, hasCloseCol := true,
    rows := [sampleRow] }

/-- An empty filesystem. -/
def emptyFS : FS := { dirs := [], files := [] }

/-! ## Helper lemmas -/

theorem dedupe_subset {l : List PreRow} {r : PreRow} (h : r ∈ dedupe l) :
    r ∈ l := by
  induction l with
  | nil => simp [dedupe] at h
  | cons a t ih =>
    simp only [dedupe] at h
    split at h
    · exact List.mem_cons_of_mem _ (ih h)
    · rcases List.mem_cons.mp h with h1 | h2
      · exact h1 ▸ List.mem_cons_self _ _
      · exact List.mem_cons_of_mem _ (ih h2)

theorem dedupe_pairwise (l : List PreRow) :
    (dedupe l).Pairwise (fun a b => keyOf a ≠ keyOf b) := by
  induction l with
  | nil => simp [dedupe]
  | cons a t ih =>
    simp only [dedupe]
    split
    · exact ih
    · next hno =>
      refine List.pairwise_cons.mpr ⟨?_, ih⟩
      intro b hb hkey
      exact hno ⟨b, dedupe_subset hb, hkey.symm⟩

theorem dedupe_eq_self {l : List PreRow}
    (h : l.Pairwise (fun a b => keyOf a ≠ keyOf b)) : dedupe l = l := by
  induction l with
  | nil => rfl
  | cons a t ih =>
    rcases List.pairwise_cons.mp h with ⟨ha, ht⟩
    simp only [dedupe]
    rw [if_neg, ih ht]
    rintro ⟨s, hs, hkey⟩
    exact ha s hs hkey.symm

theorem getLastQ_cons_of_ne_nil {α : Type _} (a : α) {l : List α} (h : l ≠ []) :
    (a :: l).getLast? = l.getLast? := by
  cases l with
  | nil => exact absurd rfl h
  | cons b t => exact List.getLast?_cons_cons

theorem mem_dedupe_iff (rows : List PreRow) (r : PreRow) :
    r ∈ dedupe rows ↔
      (rows.filter (fun s => decide (keyOf s = keyOf r))).getLast? = some r := by
  induction rows with
  | nil => simp [dedupe]
  | cons a t ih =>
    by_cases hk : keyOf a = keyOf r
    · have hfc : (a :: t).filter (fun s => decide (keyOf s = keyOf r)) =
          a :: t.filter (fun s => decide (keyOf s = keyOf r)) := by
        simp [List.filter_cons, hk]
      rw [hfc]
      simp only [dedupe]
      split
      · next hdup =>
        rcases hdup with ⟨s, hs, hsk⟩
        have hmem : s ∈ t.filter (fun s => decide (keyOf s = keyOf r)) :=
          List.mem_filter.mpr ⟨hs, by simp [hsk, hk]⟩
        have hne : t.filter (fun s => decide (keyOf s = keyOf r)) ≠ [] := by
          intro hnil
          rw [hnil] at hmem
          exact absurd hmem (List.not_mem_nil s)
        rw [getLastQ_cons_of_ne_nil _ hne]
        exact ih
      · next hdup =>
        have hnil : t.filter (fun s => decide (keyOf s = keyOf r)) = [] := by
          rw [List.filter_eq_nil_iff]
          intro s hs hsd
          exact hdup ⟨s, hs, (of_decide_eq_true hsd).trans hk.symm⟩
        rw [hnil]
        constructor
        · intro hmem
          rcases List.mem_cons.mp hmem with h1 | h2
          · simp [h1]
          · exact absurd ⟨r, dedupe_subset h2, hk.symm⟩ hdup
        · intro hlast
          have ha : a = r := by simpa using hlast
          exact List.mem_cons.mpr (Or.inl ha.symm)
    · have hfc : (a :: t).filter (fun s => decide (keyOf s = keyOf r)) =
          t.filter (fun s => decide (keyOf s = keyOf r)) := by
        simp [List.filter_cons, hk]
      rw [hfc]
      simp only [dedupe]
      split
      · exact ih
      · next hdup =>
        rw [List.mem_cons]
        constructor
        · rintro (h1 | h2)
          · exact absurd (congrArg keyOf h1.symm) hk
          · exact ih.mp h2
        · intro hlast
          exact Or.inr (ih.mpr hlast)

theorem flatten_filter_not_isEmpty {α : Type _} (L : List (List α)) :
    (L.filter (fun l => !l.isEmpty)).flatten = L.flatten := by
  induction L with
  | nil => rfl
  | cons a t ih =>
    cases a with
    | nil => simpa [List.filter_cons] using ih
    | cons x xs => simp [List.filter_cons, ih]

theorem transform_batch_eq_flatten (tradeDate : Nat)
    (data : List (String × List RawCandle)) :
    transform_batch tradeDate data =
      (data.map (fun p => transform tradeDate p.2)).flatten := by
  unfold transform_batch
  exact flatten_filter_not_isEmpty _

theorem transform_eq_map (tradeDate : Nat) (raw : List RawCandle) :
    transform tradeDate raw =
      (validateOHLC (filterMarketHours (dedupe
        (validateTimestamps (raw.map convertDtypes))))).map (stampRow tradeDate) := by
  unfold transform
  split
  · next h =>
    rw [List.isEmpty_iff.mp h]
    rfl
  · rfl

theorem validOHLC_iff (q : PreRow) :
    validOHLC q = true ↔ ∃ o h l c, q.«open» = some o ∧ q.high = some h ∧
      q.low = some l ∧ q.close = some c ∧
      l ≤ h ∧ o ≤ h ∧ l ≤ o ∧ c ≤ h ∧ l ≤ c := by
  unfold validOHLC
  rcases ho : q.«open» with _ | o <;> rcases hh : q.high with _ | h <;>
    rcases hl : q.low with _ | l <;> rcases hc : q.close with _ | c <;>
      simp [ho, hh, hl, hc, and_assoc]

theorem inMarketHours_iff (q : PreRow) :
    inMarketHours q = true ↔ ∃ t, q.timestamp = some t ∧
      marketOpenMin ≤ t % 1440 ∧ t % 1440 ≤ marketCloseMin := by
  unfold inMarketHours
  rcases ht : q.timestamp with _ | t <;> simp [ht]

theorem timestamp_isSome_of_inMarketHours {q : PreRow}
    (h : inMarketHours q = true) : q.timestamp.isSome = true := by
  rcases inMarketHours_iff q |>.mp h with ⟨t, ht, _⟩
  simp [ht]

theorem failed_mono (api : Nat → Nat → FetchOutcome) :
    ∀ (instruments : List Instrument)
      (acc : List (String × List RawCandle) × List String) (s : String),
      s ∈ acc.2 → s ∈ (instruments.foldl (extractStep api) acc).2 := by
  intro instruments
  induction instruments with
  | nil => intro acc s hs; exact hs
  | cons i t ih =>
    intro acc s hs
    rw [List.foldl_cons]
    refine ih _ s ?_
    simp only [extractStep]
    cases h : extract_5min_ohlcv api i.instrument_token with
    | some d =>
      by_cases hd : d.isEmpty
      · simpa [hd] using hs
      · simpa [hd] using hs
    | none => exact List.mem_append_left _ hs

theorem mem_failed_of_extract_none (api : Nat → Nat → FetchOutcome) :
    ∀ (instruments : List Instrument)
      (acc : List (String × List RawCandle) × List String) (inst : Instrument),
      inst ∈ instruments →
      extract_5min_ohlcv api inst.instrument_token = none →
      inst.tradingsymbol ∈ (instruments.foldl (extractStep api) acc).2 := by
  intro instruments
  induction instruments with
  | nil =>
    intro acc inst h _
    exact absurd h (List.not_mem_nil _)
  | cons i t ih =>
    intro acc inst hmem hnone
    rw [List.foldl_cons]
    rcases List.mem_cons.mp hmem with h1 | h2
    · subst h1
      refine failed_mono api t _ _ ?_
      simp only [extractStep, hnone]
      exact List.mem_append_right _ (List.mem_singleton.mpr rfl)
    · exact ih _ inst h2 hnone

theorem writeLayer_snd (fs : FS) (base layer underlying : String) (d : Date)
    (df : List Row) (overwrite : Bool) (filename : String) (hdf : df ≠ []) :
    (writeLayer fs base layer underlying d df overwrite filename).2 =
      partitionPath base layer underlying d ++ "/" ++ filename := by
  unfold writeLayer
  rw [if_neg (by simp [List.isEmpty_iff, hdf])]
  dsimp only
  split <;> rfl

theorem writeEquityLayer_snd (fs : FS) (base layer : String) (d : Date)
    (df : List Row) (overwrite : Bool) (filename : String) (hdf : df ≠ []) :
    (writeEquityLayer fs base layer d df overwrite filename).2 =
      base ++ "/equity/" ++ layer ++ "/universe=nifty500/date=" ++ fmtDate d ++
        "/" ++ filename := by
  unfold writeEquityLayer
  rw [if_neg (by simp [List.isEmpty_iff, hdf])]
  dsimp only
  split <;> rfl

theorem pipeline_pairwise (raw : List RawCandle) :
    (validateOHLC (filterMarketHours (dedupe
      (validateTimestamps (raw.map convertDtypes))))).Pairwise
      (fun a b => keyOf a ≠ keyOf b) := by
  have h1 := dedupe_pairwise (validateTimestamps (raw.map convertDtypes))
  have hsub : List.Sublist
      (validateOHLC (filterMarketHours (dedupe
        (validateTimestamps (raw.map convertDtypes)))))
      (dedupe (validateTimestamps (raw.map convertDtypes))) :=
    (List.filter_sublist _).trans (List.filter_sublist _)
  exact h1.sublist hsub

theorem gate_fails_of_errors_ne_nil (df : QualityInput)
    (h : (run_all_checks df).errors ≠ []) :
    (run_all_checks df).passed = false ∧
    fnoQualityStatus df = "quality_failed" := by
  have hp : (run_all_checks df).passed = false := by
    show (run_all_checks df).errors.isEmpty = false
    rw [Bool.eq_false_iff]
    intro ht
    exact h (List.isEmpty_iff.mp ht)
  exact ⟨hp, by simp [fnoQualityStatus, hp]⟩

/-! ## Claim theorems -/

/-- C1: every row output by `transform` / `transform_batch` satisfies
`low ≤ open ≤ high`, `low ≤ close ≤ high`, `low ≤ high`, and has a
non-null timestamp whose time of day lies within [09:15, 15:30]
inclusive; moreover each output row is the unmodified
(dtype-converted, trade-date-stamped) image of some input candle, so
offending rows are dropped, never corrected. -/
theorem c1_transformed_rows_valid (tradeDate : Nat)
    (data : List (String × List RawCandle)) (r : Row)
    (hr : r ∈ transform_batch tradeDate data) :
    (∃ o h l c, r.«open» = some o ∧ r.high = some h ∧ r.low = some l ∧
      r.close = some c ∧ l ≤ o ∧ o ≤ h ∧ l ≤ c ∧ c ≤ h ∧ l ≤ h) ∧
    (∃ t, r.timestamp = some t ∧ marketOpenMin ≤ t % 1440 ∧
      t % 1440 ≤ marketCloseMin) ∧
    (∃ p c, p ∈ data ∧ c ∈ p.2 ∧ r = stampRow tradeDate (convertDtypes c)) := by
  rw [transform_batch_eq_flatten] at hr
  rcases List.mem_flatten.mp hr with ⟨dfl, hl, hrl⟩
  rcases List.mem_map.mp hl with ⟨p, hp, rfl⟩
  rw [transform_eq_map] at hrl
  rcases List.mem_map.mp hrl with ⟨q, hq, rfl⟩
  rcases List.mem_filter.mp hq with ⟨hq1, hohlc⟩
  rcases List.mem_filter.mp hq1 with ⟨hq2, hmh⟩
  refine ⟨?_, ?_, ?_⟩
  · rcases (validOHLC_iff q).mp hohlc with
      ⟨o, h, l, c, ho, hh, hl2, hc, h1, h2, h3, h4, h5⟩
    exact ⟨o, h, l, c, ho, hh, hl2, hc, h3, h2, h5, h4, h1⟩
  · rcases (inMarketHours_iff q).mp hmh with ⟨t, ht, hb1, hb2⟩
    exact ⟨t, ht, hb1, hb2⟩
  · have hq3 := dedupe_subset hq2
    rcases List.mem_filter.mp hq3 with ⟨hq4, _⟩
    rcases List.mem_map.mp hq4 with ⟨c, hc, rfl⟩
    exact ⟨p, c, hp, hc, rfl⟩

/-- Witness for C1: the invariant instantiated on a concrete one-candle
batch. -/
theorem c1_transformed_rows_valid_witness :
    (∃ o h l c, sampleRow.«open» = some o ∧ sampleRow.high = some h ∧
      sampleRow.low = some l ∧ sampleRow.close = some c ∧
      l ≤ o ∧ o ≤ h ∧ l ≤ c ∧ c ≤ h ∧ l ≤ h) ∧
    (∃ t, sampleRow.timestamp = some t ∧ marketOpenMin ≤ t % 1440 ∧
      t % 1440 ≤ marketCloseMin) ∧
    (∃ p c, p ∈ [("X", [sampleCandle])] ∧ c ∈ p.2 ∧
      sampleRow = stampRow 7 (convertDtypes c)) :=
  c1_transformed_rows_valid 7 [("X", [sampleCandle])] sampleRow (by decide)

/-- C2: `_dedupe` keeps, among rows sharing a (tradingsymbol, timestamp)
key, exactly the last occurrence in input order (a row survives iff it
is the final element of the rows filtered to its key); in the concrete
duplicate-timestamp scenario — symbol X, same timestamp, closes 10.0
then 10.5 in that order — the transformer outputs the close-10.5 row
and no close-10.0 row. -/
theorem c2_dedupe_keeps_last :
    (∀ (rows : List PreRow) (r : PreRow),
      r ∈ dedupe rows ↔
        (rows.filter (fun s => decide (keyOf s = keyOf r))).getLast? = some r) ∧
    transform_batch 7 [("X", [sampleCandle, sampleCandleLater])] =
      [sampleRowKept] ∧
    sampleRowKept.close = some (mkRat 21 2) ∧
    (∀ r ∈ transform_batch 7 [("X", [sampleCandle, sampleCandleLater])],
      r.close ≠ some (10 : ℚ)) :=
  ⟨mem_dedupe_iff, by decide, by decide, by decide⟩

/-- Witness for C2: the kept row of the scenario indeed does not carry
close 10.0. -/
theorem c2_dedupe_keeps_last_witness :
    sampleRowKept.close ≠ some (10 : ℚ) :=
  c2_dedupe_keeps_last.2.2.2 sampleRowKept (by decide)

/-- C3: every per-instrument extraction is retried up to 3 attempts,
exhausting them yields a per-instrument failure (not an aborted batch);
each backoff delay lies in [2, 10] time-units; a permanently failing
instrument lands in the failed-symbols list while extraction continues;
and in the 5-instrument scenario with instrument #3 permanently failing
the batch returns the 4 successful symbols and
`failed_symbols = ["SYM3"]`. -/
theorem c3_retry_and_batch_isolation :
    (∀ attempt, 2 ≤ backoffDelay attempt ∧ backoffDelay attempt ≤ 10) ∧
    (∀ (api : Nat → Nat → FetchOutcome) (token : Nat),
      api token 1 = .err → api token 2 = .err → api token 3 = .err →
      extract_5min_ohlcv api token = none) ∧
    (∀ (api : Nat → Nat → FetchOutcome) (instruments : List Instrument)
      (inst : Instrument), inst ∈ instruments →
      extract_5min_ohlcv api inst.instrument_token = none →
      inst.tradingsymbol ∈ (extract_daily_data api instruments).2) ∧
    ((extract_daily_data api5 instruments5).1.map Prod.fst =
      ["SYM1", "SYM2", "SYM4", "SYM5"] ∧
     (extract_daily_data api5 instruments5).2 = ["SYM3"]) := by
  refine ⟨?_, ?_, ?_, by decide, by decide⟩
  · intro attempt
    unfold backoffDelay waitExponential
    exact ⟨le_max_left _ _, max_le (by norm_num) (min_le_right _ _)⟩
  · intro api token h1 h2 h3
    simp [extract_5min_ohlcv, h1, h2, h3]
  · intro api instruments inst hmem hnone
    exact mem_failed_of_extract_none api instruments ([], []) inst hmem hnone

/-- Witness for C3: retry exhaustion on an always-failing upstream, and
the failed symbol of the concrete scenario. -/
theorem c3_retry_and_batch_isolation_witness :
    extract_5min_ohlcv apiAllErr 0 = none ∧
    "SYM3" ∈ (extract_daily_data api5 instruments5).2 :=
  ⟨c3_retry_and_batch_isolation.2.1 apiAllErr 0 rfl rfl rfl,
   c3_retry_and_batch_isolation.2.2.1 api5 instruments5 ⟨"SYM3", 3⟩
     (by decide) (by decide)⟩

/-- C4: every (non-empty) write of the partitioned store lands exactly
at `<base>/<domain>/<layer>/<scope-key-field>=<scope_key>/date=<YYYY-MM-DD>/
<filename>`: the derivatives tree uses domain `fno` with scope-key field
`underlying`, the equity tree (modelled from the spec, its writer being
absent from the provided sources) uses its own domain with the fixed
scope-key literal `universe=nifty500`. -/
theorem c4_partition_path_scheme (fs : FS) (base layer underlying : String)
    (d : Date) (df : List Row) (overwrite : Bool) (filename : String)
    (hdf : df ≠ []) :
    (writeLayer fs base layer underlying d df overwrite filename).2 =
      base ++ "/fno/" ++ layer ++ "/underlying=" ++ underlying ++ "/date=" ++
        fmtDate d ++ "/" ++ filename ∧
    (writeEquityLayer fs base layer d df overwrite filename).2 =
      base ++ "/equity/" ++ layer ++ "/universe=nifty500/date=" ++ fmtDate d ++
        "/" ++ filename :=
  ⟨writeLayer_snd fs base layer underlying d df overwrite filename hdf,
   writeEquityLayer_snd fs base layer d df overwrite filename hdf⟩

/-- Witness for C4: the concrete paths produced for a one-row write on
2025-03-07. -/
theorem c4_partition_path_scheme_witness :
    (writeLayer emptyFS "/lake" "raw" "BANKNIFTY" ⟨2025, 3, 7⟩ [sampleRow]
      true "data.parquet").2 =
      "/lake" ++ "/fno/" ++ "raw" ++ "/underlying=" ++ "BANKNIFTY" ++
        "/date=" ++ fmtDate ⟨2025, 3, 7⟩ ++ "/" ++ "data.parquet" ∧
    (writeEquityLayer emptyFS "/lake" "raw" ⟨2025, 3, 7⟩ [sampleRow]
      true "data.parquet").2 =
      "/lake" ++ "/equity/" ++ "raw" ++ "/universe=nifty500/date=" ++
        fmtDate ⟨2025, 3, 7⟩ ++ "/" ++ "data.parquet" :=
  c4_partition_path_scheme emptyFS "/lake" "raw" "BANKNIFTY" ⟨2025, 3, 7⟩
    [sampleRow] true "data.parquet" (by simp)

/-- C6: writing an empty dataset is a no-op returning an empty path and
leaving the filesystem — in particular its directory set — untouched,
for every layer, scope key and date (both store trees); and reading a
partition whose directory is absent, or which holds no parquet files,
returns an empty dataset without error. -/
theorem c6_empty_write_missing_read (fs : FS) (base layer underlying : String)
    (d : Date) (overwrite : Bool) (filename : String) :
    writeLayer fs base layer underlying d [] overwrite filename = (fs, "") ∧
    writeEquityLayer fs base layer d [] overwrite filename = (fs, "") ∧
    (partitionPath base layer underlying d ∉ fs.dirs →
      read_partition fs base layer underlying d = []) ∧
    ((∀ f ∈ fs.files, f.1 ≠ partitionPath base layer underlying d) →
      read_partition fs base layer underlying d = []) := by
  refine ⟨rfl, rfl, ?_, ?_⟩
  · intro hdir
    unfold read_partition
    rw [if_neg hdir]
  · intro hfiles
    unfold read_partition
    dsimp only
    split
    · have hnil : fs.files.filter
          (fun f => decide (f.1 = partitionPath base layer underlying d)) = [] := by
        rw [List.filter_eq_nil_iff]
        intro f hf
        simpa using hfiles f hf
      rw [hnil]
      rfl
    · rfl

/-- Witness for C6: empty write and missing-partition read on an empty
filesystem. -/
theorem c6_empty_write_missing_read_witness :
    writeLayer emptyFS "/lake" "raw" "BANKNIFTY" ⟨2025, 3, 7⟩ [] true
      "data.parquet" = (emptyFS, "") ∧
    read_partition emptyFS "/lake" "raw" "BANKNIFTY" ⟨2025, 3, 7⟩ = [] :=
  ⟨(c6_empty_write_missing_read emptyFS "/lake" "raw" "BANKNIFTY" ⟨2025, 3, 7⟩
      true "data.parquet").1,
   (c6_empty_write_missing_read emptyFS "/lake" "raw" "BANKNIFTY" ⟨2025, 3, 7⟩
      true "data.parquet").2.2.1 (by decide)⟩

/-- C5: the quality gate passes exactly when its error list is empty —
warnings can never change the verdict — and a dataset whose only defect
is a duplicated (symbol, timestamp) pair draws a duplicate warning yet
still passes. -/
theorem c5_passed_iff_no_errors :
    (∀ df : QualityInput,
      ((run_all_checks df).passed = true ↔ (run_all_checks df).errors = [])) ∧
    run_all_checks dupOnlyDF =
      { passed := true, errors := [],
        warnings := ["Found 1 duplicate (symbol, timestamp) pairs"] } := by
  constructor
  · intro df
    show (run_all_checks df).errors.isEmpty = true ↔ (run_all_checks df).errors = []
    exact List.isEmpty_iff
  · decide

/-- C7 counterexample: a `transform_batch` output in which two batch
entries carry candles tagged with the same symbol holds the same
(symbol, timestamp) row twice, and re-applying `transform` to its rows
(same trade date) shrinks it — so not every transformed dataset is a
fixed point of `transform`, refuting the claim as stated. -/
theorem c7_batch_not_fixed_point :
    transform_batch 7 [("A", [sampleCandle]), ("B", [sampleCandle])] =
      [sampleRow, sampleRow] ∧
    transform 7 ((transform_batch 7
        [("A", [sampleCandle]), ("B", [sampleCandle])]).map rowToRaw) =
      [sampleRow] ∧
    transform 7 ((transform_batch 7
        [("A", [sampleCandle]), ("B", [sampleCandle])]).map rowToRaw) ≠
      transform_batch 7 [("A", [sampleCandle]), ("B", [sampleCandle])] :=
  ⟨by decide, by decide, by decide⟩

/-- C7 (amended): `transform` is idempotent on its own outputs — for
every input list and trade date, re-applying `transform` to the rows of
its output returns that output unchanged — and every `transform` output
holds at most one row per (symbol, timestamp) key. (A `transform_batch`
output need not be a fixed point when two entries carry candles tagged
with the same symbol; see the counterexample.) -/
theorem c7_transform_fixed_point (tradeDate : Nat) (raw : List RawCandle) :
    transform tradeDate ((transform tradeDate raw).map rowToRaw) =
      transform tradeDate raw ∧
    (transform tradeDate raw).Pairwise
      (fun a b => keyOf a.toPreRow ≠ keyOf b.toPreRow) := by
  have hD : transform tradeDate raw = (validateOHLC (filterMarketHours (dedupe
      (validateTimestamps (raw.map convertDtypes))))).map (stampRow tradeDate) :=
    transform_eq_map tradeDate raw
  set D := validateOHLC (filterMarketHours (dedupe
      (validateTimestamps (raw.map convertDtypes)))) with hDdef
  have hpair : D.Pairwise (fun a b => keyOf a ≠ keyOf b) := pipeline_pairwise raw
  have hohlc : ∀ q ∈ D, validOHLC q = true := by
    intro q hq
    exact (List.mem_filter.mp hq).2
  have hmh : ∀ q ∈ D, inMarketHours q = true := by
    intro q hq
    have hqC := (List.mem_filter.mp hq).1
    exact (List.mem_filter.mp hqC).2
  have hts : ∀ q ∈ D, q.timestamp.isSome = true := fun q hq =>
    timestamp_isSome_of_inMarketHours (hmh q hq)
  constructor
  · rw [hD, transform_eq_map]
    rw [List.map_map, List.map_map]
    have hcomp : ((convertDtypes ∘ rowToRaw) ∘ stampRow tradeDate) = id :=
      funext fun q => rfl
    rw [hcomp, List.map_id]
    have hB : validateTimestamps D = D := List.filter_eq_self.mpr hts
    have hC : dedupe D = D := dedupe_eq_self hpair
    have hM : filterMarketHours D = D := List.filter_eq_self.mpr hmh
    have hV : validateOHLC D = D := List.filter_eq_self.mpr hohlc
    rw [hB, hC, hM, hV]
  · rw [hD, List.pairwise_map]
    exact hpair

/-- C8 counterexample: a dataset missing the required `open` column —
a structural data error per the claim — nevertheless passes the gate
(the checker skips absent price columns), so the run status is
`success`, not `quality_failed`, refuting the claim as stated. -/
theorem c8_missing_price_column_passes :
    noOpenDF.hasOpenCol = false ∧
    (run_all_checks noOpenDF).passed = true ∧
    (run_all_checks noOpenDF).errors = [] ∧
    fnoQualityStatus noOpenDF = "success" :=
  ⟨rfl, by decide, by decide, by decide⟩

/-- C8 (amended): structural defects of the timestamp column — the
column missing entirely, or any null timestamp in it — surface only as
Quality-Gate errors: the gate returns `passed = false` and the quality
stage completes with status `quality_failed` (no branch of the checker
raises; it only appends to its error list). A missing price column,
by contrast, is skipped by the price checks and does not by itself fail
the gate (see the counterexample). -/
theorem c8_timestamp_defects_fail_gate (df : QualityInput) :
    (df.hasTimestampCol = false →
      (run_all_checks df).passed = false ∧
      fnoQualityStatus df = "quality_failed") ∧
    (df.hasTimestampCol = true → (∃ r ∈ df.rows, r.timestamp = none) →
      (run_all_checks df).passed = false ∧
      fnoQualityStatus df = "quality_failed") := by
  constructor
  · intro h
    refine gate_fails_of_errors_ne_nil df ?_
    simp only [run_all_checks, check_no_null_timestamps, h]
    simp [List.append_eq_nil]
  · rintro h ⟨r, hr, hrn⟩
    refine gate_fails_of_errors_ne_nil df ?_
    have hpos : 0 < df.rows.countP (fun r => r.timestamp.isNone) :=
      List.countP_pos_iff.mpr ⟨r, hr, by simp [hrn]⟩
    simp only [run_all_checks, check_no_null_timestamps, h]
    rw [if_neg (by simp), if_pos hpos]
    simp [List.append_eq_nil]

/-- Witness for C8 (amended): the gate verdict on a concrete dataset
whose timestamp column is missing. -/
theorem c8_timestamp_defects_fail_gate_witness :
    (run_all_checks noTimestampDF).passed = false ∧
    fnoQualityStatus noTimestampDF = "quality_failed" :=
  (c8_timestamp_defects_fail_gate noTimestampDF).1 rfl

/-- C9: with no explicit symbol list, an unreachable universe source
makes the resolver fall back to the fixed list of 20 major symbols
(never raising, never yielding an empty universe), while a reachable
source yields exactly the fetched membership. -/
theorem c9_universe_fallback :
    (getNifty500Symbols none = fallbackSymbols ∧
      fallbackSymbols.length = 20 ∧ fallbackSymbols ≠ []) ∧
    (∀ symbols, getNifty500Symbols (some symbols) = symbols) ∧
    (∀ catalog, get_nifty500_instruments catalog none none =
      fallbackSymbols.filterMap (symbolLookup catalog)) :=
  ⟨⟨rfl, by decide, by decide⟩, fun _ => rfl, fun _ => rfl⟩

/-- C10: the transformer never enforces price non-negativity: a row with
all-negative but order-consistent OHLC values survives `transform` with
its prices unchanged, and its null volume is coerced to 0 rather than
dropping the row. -/
theorem c10_negative_prices_retained :
    transform 7 [negCandle] = [negRow] ∧
    negCandle.volume = none ∧ negRow.volume = 0 ∧
    negRow.«open» = some (-10) ∧ negRow.high = some (-9) ∧
    negRow.low = some (-11) ∧ negRow.close = some (-10) :=
  ⟨by decide, rfl, rfl, rfl, rfl, rfl, rfl⟩

end StockEtl
